import Mathlib

/-!
Shallow embedding of the `emergence` library (src/src/lib.rs): a read-through
cache for Advent of Code puzzle inputs.  External collaborators (filesystem,
network, clock, process environment) are passed in explicitly:

* the filesystem is an association list from paths to file contents;
* the network is the response the single GET would produce;
* the clock is an integer count of seconds since the Unix epoch;
* `readOk` / `writeOk` / `mkdirOk` model whether the corresponding
  filesystem operation succeeds when attempted.

Every definition mirrors the Rust source function of the same name; the
`Outcome` record additionally counts the observable effects (network sends,
gate checks) that the claims quantify over.
-/

namespace Emergence

/-- The `Error` enum of lib.rs.  `reqwest` covers both transport failures and
`error_for_status` (non-success HTTP status); `ioErr` is `std::io::Error`. -/
inductive Err where
  | reqwest
  | ioErr
  | notYetReleased (day : Nat)
  | dayZero
  | outOfBounds
  deriving DecidableEq, Repr

/-- The `AoC` struct: cache base path, session token, year.
The `reqwest::blocking::Client` field carries no state we model. -/
structure AoC where
  path : String
  token : String
  year : Nat
  deriving DecidableEq, Repr

/-- The external world a call runs against: the filesystem (paths to
contents), the current instant (seconds since epoch), the body the network
would deliver (or a transport/status error), and whether filesystem
read/write calls succeed when attempted. -/
structure Env where
  cache : List (String × String)
  now : Int
  net : Except Unit String
  readOk : Bool
  writeOk : Bool

/-- First-match association-list lookup: the content of the file at `k`,
or `none` when no such file exists. -/
def lookup (c : List (String × String)) (k : String) : Option String :=
  match c with
  | [] => none
  | (k2, v) :: rest => if k2 = k then some v else lookup rest k

/-- Rust's `format!("{:02}", n)`: decimal, zero-padded on the left to a
minimum width of 2. -/
def format02 (n : Nat) : String :=
  let s := toString n
  String.mk (List.replicate (2 - s.length) '0') ++ s

/-- `AoC::loc`: the cache path for a day, `<path>/<year>/day<NN>.txt`
(`PathBuf::push` inserts the separator). -/
def AoC.loc (a : AoC) (day : Nat) : String :=
  a.path ++ "/" ++ toString a.year ++ "/day" ++ format02 day ++ ".txt"

/-- Civil-date to epoch-day conversion for December dates (the month is
always 12 in `fetch`), the standard days-from-civil algorithm with the
month term `(153 * (12 - 3) + 2) / 5` evaluated for December. -/
def daysFromCivilDec (y : Nat) (d : Nat) : Int :=
  let era := y / 400
  let yoe := y % 400
  let doy := (153 * 9 + 2) / 5 + (d - 1)
  let doe := yoe * 365 + yoe / 4 - yoe / 100 + doy
  (era * 146097 + doe : Int) - 719468

/-- The instant `AoC::fetch` actually compares against the clock, in seconds
since the epoch.  `DateTime::from_naive_utc_and_offset` interprets its naive
argument (December `day`, 00:00:00) as a UTC datetime; the
`FixedOffset::west_opt(5 * 60 * 60)` only changes how the instant is
displayed, not which instant it is.  So the boundary is midnight UTC. -/
def releaseBoundaryCode (year day : Nat) : Int :=
  daysFromCivilDec year day * 86400

/-- Modelled from the spec's words, for comparison with
`releaseBoundaryCode`: "local midnight of December `day`, `year`, in a fixed
UTC-5 offset", i.e. 05:00:00 UTC of that date. -/
def releaseBoundarySpec (year day : Nat) : Int :=
  daysFromCivilDec year day * 86400 + 5 * 60 * 60

/-- The URL `fetch` issues its GET against. -/
def url (a : AoC) (day : Nat) : String :=
  "https://adventofcode.com/" ++ toString a.year ++ "/day/" ++ toString day ++ "/input"

/-- `AoC::fetch`: gate on the release boundary, then perform the GET.
Returns the result together with the number of network sends performed
(0 when the gate blocks, 1 once `send()` runs). -/
def AoC.fetch (a : AoC) (env : Env) (day : Nat) : Except Err String × Nat :=
  if env.now < releaseBoundaryCode a.year day then
    (.error (.notYetReleased day), 0)
  else
    match env.net with
    | .error _ => (.error .reqwest, 1)
    | .ok body => (.ok body, 1)

/-- `AoC::read`: `Ok(None)` when the file does not exist (cache miss is not
an error), the content when it exists and the read succeeds, an I/O error
otherwise. -/
def AoC.read (a : AoC) (env : Env) (day : Nat) : Except Err (Option String) :=
  match lookup env.cache (a.loc day) with
  | none => .ok none
  | some t => if env.readOk then .ok (some t) else .error .ioErr

/-- `AoC::write`: `std::fs::write` of `text` at `loc day` — on success the
new filesystem, on failure an I/O error.  No directory is created. -/
def AoC.write (a : AoC) (env : Env) (day : Nat) (text : String) :
    Except Err (List (String × String)) :=
  if env.writeOk then .ok ((a.loc day, text) :: env.cache) else .error .ioErr

/-- The trailing trim in `with_path`: Rust's
`s.truncate(s.trim_end().len())` drops exactly the trailing whitespace
(spaces, tabs, newlines) of the file content. -/
def rtrim (s : String) : String :=
  String.mk (s.data.reverse.dropWhile Char.isWhitespace).reverse

/-- `AoC::find_tokenfile`: walk from the current directory upward through
its ancestors (the root included — `PathBuf::pop` only returns `false`
after the root itself has been checked) and return the first
`<dir>/tokenfile` that is a file.  `dirs` is the ancestor chain starting at
the current working directory; `isFile` is the filesystem's file test. -/
def find_tokenfile (dirs : List String) (isFile : String → Bool) : Option String :=
  match dirs with
  | [] => none
  | d :: rest =>
    if isFile (d ++ "/tokenfile") then some (d ++ "/tokenfile")
    else find_tokenfile rest isFile

/-- The token resolution inside `AoC::with_path`:
`std::env::var("TOKEN").ok().or_else(|| tokenpath.and_then(read_to_string),
trailing-trimmed)`.  `envTOKEN` is the value of `$TOKEN` when present,
`readFile` the filesystem's read (returning `none` on failure). -/
def resolveToken (envTOKEN : Option String) (dirs : List String)
    (isFile : String → Bool) (readFile : String → Option String) : Option String :=
  let tokenpath := find_tokenfile dirs isFile
  envTOKEN.orElse fun _ => ((tokenpath.bind readFile).map rtrim)

/-- What one `read_or_fetch` call produced: its result, the filesystem
afterwards, how many network sends ran, and how many release-gate checks
ran. -/
structure Outcome where
  result : Except Err String
  cache : List (String × String)
  fetches : Nat
  gateChecks : Nat
  deriving Repr

/-- `AoC::read_or_fetch`: validate the day, try the cache, and on a miss
fetch (gated) then write the text through to the cache. -/
def AoC.read_or_fetch (a : AoC) (env : Env) (day : Nat) : Outcome :=
  if day = 0 then ⟨.error .dayZero, env.cache, 0, 0⟩
  else if day > 25 then ⟨.error .outOfBounds, env.cache, 0, 0⟩
  else
    match a.read env day with
    | .error e => ⟨.error e, env.cache, 0, 0⟩
    | .ok (some text) => ⟨.ok text, env.cache, 0, 0⟩
    | .ok none =>
      match a.fetch env day with
      | (.error e, sends) => ⟨.error e, env.cache, sends, 1⟩
      | (.ok text, sends) =>
        match a.write env day text with
        | .error e => ⟨.error e, env.cache, sends, 1⟩
        | .ok cache2 => ⟨.ok text, cache2, sends, 1⟩

/-- How a constructor call ends: a built client, a typed `Err` returned to
the caller, or a crash of the process (`assert!` / `panic!`). -/
inductive CtorOutcome where
  | ok (a : AoC)
  | err (e : Err)
  | panicked (msg : String)
  deriving DecidableEq, Repr

/-- A constructor call's outcome together with the directories it created
on the filesystem. -/
structure CtorResult where
  outcome : CtorOutcome
  dirsCreated : List String
  deriving DecidableEq, Repr

/-- The `assert!` message in `with_path_and_token`. -/
def yearPanicMsg : String := "Year must be less than 3000"

/-- The `panic!` message in `with_path` when no token source yields a
value. -/
def tokenPanicMsg : String :=
  "Could not read token from $TOKEN or find a ./tokenfile in this directory or any parent. Please set the token in one of these locations or use `AoC::with_path_and_token`"

/-- `AoC::with_path_and_token`: assert the year bound, then
`create_dir_all(path.join(year))` — eagerly, at construction — and build the
client.  `mkdirOk` is whether that directory creation succeeds. -/
def with_path_and_token (year : Nat) (path token : String) (mkdirOk : Bool) :
    CtorResult :=
  if ¬ year < 3000 then ⟨.panicked yearPanicMsg, []⟩
  else if mkdirOk then
    ⟨.ok ⟨path, token, year⟩, [path ++ "/" ++ toString year]⟩
  else ⟨.err .ioErr, []⟩

/-- `AoC::with_path`: resolve the token from `$TOKEN` or an upward
`tokenfile` search; when neither yields a value the function panics (it does
not return an `Err`), otherwise it delegates to `with_path_and_token`. -/
def with_path (year : Nat) (path : String) (envTOKEN : Option String)
    (dirs : List String) (isFile : String → Bool)
    (readFile : String → Option String) (mkdirOk : Bool) : CtorResult :=
  match resolveToken envTOKEN dirs isFile readFile with
  | none => ⟨.panicked tokenPanicMsg, []⟩
  | some token => with_path_and_token year path token mkdirOk

end Emergence

namespace Emergence

/-- C4: for every client, environment (cache, clock, network) and day,
`read_or_fetch 0` fails with `DayZero` and `read_or_fetch day` for `day > 25`
fails with `OutOfBounds`; in both cases no cache read, gate check or network
send happens and the filesystem is untouched. -/
theorem read_or_fetch_validates_day_first (a : AoC) (env : Env) (day : Nat)
    (h : day = 0 ∨ day > 25) :
    a.read_or_fetch env day =
      ⟨.error (if day = 0 then .dayZero else .outOfBounds), env.cache, 0, 0⟩ := by
  rcases h with h | h
  · simp [AoC.read_or_fetch, h]
  · have h0 : ¬ day = 0 := by omega
    simp [AoC.read_or_fetch, h0, h]

/-- Witness for C4 at concrete inputs: day 0 and day 26 against a populated
cache and a live network. -/
theorem read_or_fetch_validates_day_first_witness :
    (AoC.mk "b" "t" 2020).read_or_fetch ⟨[("k", "v")], 0, .ok "x", true, true⟩ 0 =
      ⟨.error .dayZero, [("k", "v")], 0, 0⟩ ∧
    (AoC.mk "b" "t" 2020).read_or_fetch ⟨[("k", "v")], 0, .ok "x", true, true⟩ 26 =
      ⟨.error .outOfBounds, [("k", "v")], 0, 0⟩ :=
  ⟨read_or_fetch_validates_day_first _ _ 0 (Or.inl rfl),
   read_or_fetch_validates_day_first _ _ 26 (Or.inr (by decide))⟩

/-- C2: for every day in [1,25], when the cache holds an entry at the day's
path (and the read succeeds), `read_or_fetch` returns exactly that content,
performs no network send and no gate check, and leaves the filesystem
unchanged. -/
theorem read_or_fetch_cache_hit (a : AoC) (env : Env) (day : Nat) (t : String)
    (h1 : 1 ≤ day) (h2 : day ≤ 25)
    (hc : lookup env.cache (a.loc day) = some t)
    (hr : env.readOk = true) :
    a.read_or_fetch env day = ⟨.ok t, env.cache, 0, 0⟩ := by
  have h0 : ¬ day = 0 := by omega
  have h25 : ¬ day > 25 := by omega
  simp [AoC.read_or_fetch, AoC.read, h0, h25, hc, hr]

/-- Witness for C2: a one-file cache for 2020 day 1 is returned verbatim with
zero sends and zero gate checks. -/
theorem read_or_fetch_cache_hit_witness :
    (AoC.mk "base" "tok" 2020).read_or_fetch
      ⟨[((AoC.mk "base" "tok" 2020).loc 1, "hello")], 0, .ok "other", true, true⟩ 1 =
      ⟨.ok "hello", [((AoC.mk "base" "tok" 2020).loc 1, "hello")], 0, 0⟩ :=
  read_or_fetch_cache_hit _ _ 1 "hello" (by decide) (by decide) (by simp [lookup]) rfl

/-- C3: for every day in [1,25], on a cache miss with the (code's) release
boundary at or before the current instant, a responsive network and a
working filesystem, `read_or_fetch` performs exactly one network send, writes
the fetched body verbatim at the day's cache path, and returns exactly the
body that is now cached there. -/
theorem read_or_fetch_cache_miss_fetches_once (a : AoC) (env : Env) (day : Nat)
    (body : String)
    (h1 : 1 ≤ day) (h2 : day ≤ 25)
    (hc : lookup env.cache (a.loc day) = none)
    (hb : releaseBoundaryCode a.year day ≤ env.now)
    (hn : env.net = .ok body)
    (hw : env.writeOk = true) :
    a.read_or_fetch env day = ⟨.ok body, (a.loc day, body) :: env.cache, 1, 1⟩ ∧
    lookup (a.read_or_fetch env day).cache (a.loc day) = some body := by
  have h0 : ¬ day = 0 := by omega
  have h25 : ¬ day > 25 := by omega
  have hg : ¬ env.now < releaseBoundaryCode a.year day := not_lt.2 hb
  refine ⟨?_, ?_⟩ <;>
    simp [AoC.read_or_fetch, AoC.read, AoC.fetch, AoC.write, h0, h25, hc, hg, hn, hw, lookup]

/-- Witness for C3: empty cache, clock one second past the 2020 day 1
boundary, network delivering "body". -/
theorem read_or_fetch_cache_miss_fetches_once_witness :
    (AoC.mk "base" "tok" 2020).read_or_fetch ⟨[], 1606780801, .ok "body", true, true⟩ 1 =
      ⟨.ok "body", [((AoC.mk "base" "tok" 2020).loc 1, "body")], 1, 1⟩ :=
  (read_or_fetch_cache_miss_fetches_once (AoC.mk "base" "tok" 2020)
    ⟨[], 1606780801, .ok "body", true, true⟩ 1 "body" (by decide) (by decide) rfl
    (by decide) rfl rfl).1

/-- C5: the cache is changed only by the one success path — day valid, cache
miss, gate passed, network send succeeded, write succeeded — and then it is
exactly the old filesystem plus the fetched text at the day's path; by
contraposition every failing call (NotYetReleased, transport error, failed
write, invalid day) leaves the filesystem unchanged. -/
theorem cache_write_only_after_gated_fetch (a : AoC) (env : Env) (day : Nat)
    (h : (a.read_or_fetch env day).cache ≠ env.cache) :
    1 ≤ day ∧ day ≤ 25 ∧ lookup env.cache (a.loc day) = none ∧
    releaseBoundaryCode a.year day ≤ env.now ∧
    ∃ t, env.net = .ok t ∧ (a.read_or_fetch env day).result = .ok t ∧
      (a.read_or_fetch env day).cache = (a.loc day, t) :: env.cache := by
  by_cases h0 : day = 0
  · simp [AoC.read_or_fetch, h0] at h
  by_cases h25 : day > 25
  · simp [AoC.read_or_fetch, h0, h25] at h
  rcases hc : lookup env.cache (a.loc day) with _ | t
  · by_cases hg : env.now < releaseBoundaryCode a.year day
    · simp [AoC.read_or_fetch, AoC.read, AoC.fetch, h0, h25, hc, hg] at h
    · rcases hn : env.net with e | body
      · simp [AoC.read_or_fetch, AoC.read, AoC.fetch, h0, h25, hc, hg, hn] at h
      · rcases hw : env.writeOk with _ | _
        · simp [AoC.read_or_fetch, AoC.read, AoC.fetch, AoC.write, h0, h25, hc, hg, hn, hw] at h
        · refine ⟨by omega, by omega, rfl, not_lt.1 hg, body, rfl, ?_, ?_⟩ <;>
            simp [AoC.read_or_fetch, AoC.read, AoC.fetch, AoC.write, h0, h25, hc, hg, hn, hw]
  · rcases hr : env.readOk with _ | _ <;>
      simp [AoC.read_or_fetch, AoC.read, h0, h25, hc, hr] at h

/-- Witness for C5: a call that does change the cache (miss, gate passed,
network ok, write ok) indeed went through the success path. -/
theorem cache_write_only_after_gated_fetch_witness :
    ∃ t, (⟨[], 1606780801, .ok "body", true, true⟩ : Env).net = .ok t ∧
      ((AoC.mk "base" "tok" 2020).read_or_fetch
        ⟨[], 1606780801, .ok "body", true, true⟩ 1).result = .ok t ∧
      ((AoC.mk "base" "tok" 2020).read_or_fetch
        ⟨[], 1606780801, .ok "body", true, true⟩ 1).cache =
        ((AoC.mk "base" "tok" 2020).loc 1, t) :: [] :=
  (cache_write_only_after_gated_fetch (AoC.mk "base" "tok" 2020)
    ⟨[], 1606780801, .ok "body", true, true⟩ 1 (by decide)).2.2.2.2

/-- C10: when the fetch succeeds but the cache write fails, the whole call
fails with the storage (I/O) error: the fetched text is not returned and the
filesystem is unchanged. -/
theorem write_failure_fails_call (a : AoC) (env : Env) (day : Nat) (body : String)
    (h1 : 1 ≤ day) (h2 : day ≤ 25)
    (hc : lookup env.cache (a.loc day) = none)
    (hb : releaseBoundaryCode a.year day ≤ env.now)
    (hn : env.net = .ok body)
    (hw : env.writeOk = false) :
    a.read_or_fetch env day = ⟨.error .ioErr, env.cache, 1, 1⟩ := by
  have h0 : ¬ day = 0 := by omega
  have h25 : ¬ day > 25 := by omega
  have hg : ¬ env.now < releaseBoundaryCode a.year day := not_lt.2 hb
  simp [AoC.read_or_fetch, AoC.read, AoC.fetch, AoC.write, h0, h25, hc, hg, hn, hw]

/-- Witness for C10: with the write failing, the fetched "body" is not
returned and nothing is cached. -/
theorem write_failure_fails_call_witness :
    (AoC.mk "base" "tok" 2020).read_or_fetch ⟨[], 1606780801, .ok "body", true, false⟩ 1 =
      ⟨.error .ioErr, [], 1, 1⟩ :=
  write_failure_fails_call _ _ 1 "body" (by decide) (by decide) rfl (by decide) rfl rfl

/-- C1 (bug evidence): for 2020 day 1 the boundary the code's gate uses is
2020-12-01T00:00:00Z (epoch 1606780800), not the spec's local midnight in
UTC-5, which is 05:00:00 UTC (epoch 1606798800).  At 02:00 UTC on Dec 1 —
before the spec's boundary — an empty-cache `read_or_fetch` does not fail
with `NotYetReleased`: it fetches and returns the body. -/
theorem release_gate_opens_five_hours_early :
    releaseBoundaryCode 2020 1 = 1606780800 ∧
    releaseBoundarySpec 2020 1 = 1606798800 ∧
    (1606788000 : Int) < releaseBoundarySpec 2020 1 ∧
    ((AoC.mk "b" "t" 2020).read_or_fetch ⟨[], 1606788000, .ok "body", true, true⟩ 1)
      = ⟨.ok "body", [((AoC.mk "b" "t" 2020).loc 1, "body")], 1, 1⟩ :=
  ⟨by decide, by decide, by decide, rfl⟩

/-- C6: the `$TOKEN` environment variable takes precedence — whenever it is
set its value is the resolved token, whatever the filesystem holds; only
when it is absent is the token the trailing-trimmed content of the
`tokenfile` found by the upward search; the search takes the nearest
directory that has a `tokenfile` and walks to the parent when the current
directory has none; and trailing newlines are trimmed from file content. -/
theorem token_env_precedes_tokenfile (v : String) (dirs : List String)
    (isFile : String → Bool) (readFile : String → Option String) :
    resolveToken (some v) dirs isFile readFile = some v ∧
    resolveToken none dirs isFile readFile
      = ((find_tokenfile dirs isFile).bind readFile).map rtrim ∧
    (∀ d rest, isFile (d ++ "/tokenfile") = true →
      find_tokenfile (d :: rest) isFile = some (d ++ "/tokenfile")) ∧
    (∀ d rest, isFile (d ++ "/tokenfile") = false →
      find_tokenfile (d :: rest) isFile = find_tokenfile rest isFile) ∧
    (∀ t : String, rtrim (t.push (Char.ofNat 10)) = rtrim t) := by
  refine ⟨rfl, rfl, ?_, ?_, ?_⟩
  · intro d rest h
    simp [find_tokenfile, h]
  · intro d rest h
    simp [find_tokenfile, h]
  · intro t
    apply String.ext
    simp [rtrim, String.push, List.dropWhile]

/-- Witness for C6: with `TOKEN=ENVTOK` and a tokenfile everywhere, the
environment value wins; and the search finds `a/tokenfile` in the first
directory that has one. -/
theorem token_env_precedes_tokenfile_witness :
    resolveToken (some "ENVTOK") ["a"] (fun _ => true) (fun _ => some "FILETOK") = some "ENVTOK" ∧
    find_tokenfile ["a"] (fun _ => true) = some ("a" ++ "/tokenfile") :=
  ⟨(token_env_precedes_tokenfile "ENVTOK" ["a"] (fun _ => true) (fun _ => some "FILETOK")).1,
   (token_env_precedes_tokenfile "ENVTOK" ["a"] (fun _ => true)
      (fun _ => some "FILETOK")).2.2.1 "a" [] rfl⟩

/-- C7: the cache key is `<path>/<year>/day<NN>.txt` with the day
zero-padded to two digits (for every year and every day in [1,25]); in
particular for year 2020, day 1 and base `D` it is exactly
`D/2020/day01.txt`. -/
theorem loc_cache_key (D tok : String) (y day : Nat)
    (h1 : 1 ≤ day) (h2 : day ≤ 25) :
    (AoC.mk D tok y).loc day
      = D ++ "/" ++ toString y ++ "/day"
          ++ (if day < 10 then "0" ++ toString day else toString day) ++ ".txt" ∧
    (AoC.mk D tok 2020).loc 1 = D ++ "/2020/day01.txt" := by
  constructor
  · have hpad : format02 day = (if day < 10 then "0" ++ toString day else toString day) := by
      interval_cases day <;> rfl
    simp [AoC.loc, hpad]
  · apply String.ext
    simp only [AoC.loc, String.data_append, List.append_assoc]
    exact congrArg (D.data ++ ·) rfl

/-- Witness for C7 at base "D", token "tok", year 2020, day 3. -/
theorem loc_cache_key_witness :
    (AoC.mk "D" "tok" 2020).loc 3
      = "D" ++ "/" ++ toString 2020 ++ "/day"
          ++ (if 3 < 10 then "0" ++ toString 3 else toString 3) ++ ".txt" :=
  (loc_cache_key "D" "tok" 2020 3 (by decide) (by decide)).1

/-- Has the constructor call ended with a typed `Err` value returned to the
caller (as opposed to a built client or a panic)? -/
def CtorOutcome.isTypedErr : CtorOutcome → Bool
  | .err _ => true
  | _ => false

/-- C8 counterexample: with no `$TOKEN` and no `tokenfile` anywhere,
`with_path` does not return a typed error value — it panics with its fixed
message. -/
theorem with_path_no_token_not_typed :
    (with_path 2020 "base" none ["d"] (fun _ => false) (fun _ => none) true).outcome.isTypedErr
      = false ∧
    with_path 2020 "base" none ["d"] (fun _ => false) (fun _ => none) true
      = ⟨.panicked tokenPanicMsg, []⟩ :=
  ⟨rfl, rfl⟩

/-- C8 amended: whenever credential resolution yields no token, `with_path`
panics with the fixed message at construction time (so the failure is never
a typed `Err` and can never occur inside `read_or_fetch`, which takes an
already-built client). -/
theorem with_path_no_token_panics (year : Nat) (path : String)
    (envTOKEN : Option String) (dirs : List String) (isFile : String → Bool)
    (readFile : String → Option String) (mkdirOk : Bool)
    (h : resolveToken envTOKEN dirs isFile readFile = none) :
    with_path year path envTOKEN dirs isFile readFile mkdirOk
      = ⟨.panicked tokenPanicMsg, []⟩ := by
  simp [with_path, h]

/-- Witness for C8's amended claim: empty ancestor chain, no `$TOKEN`. -/
theorem with_path_no_token_panics_witness :
    with_path 2021 "p" none [] (fun _ => false) (fun _ => none) true
      = ⟨.panicked tokenPanicMsg, []⟩ :=
  with_path_no_token_panics 2021 "p" none [] (fun _ => false) (fun _ => none) true rfl

/-- C9 counterexample: constructing a client for year 2020 at base "base"
already creates the directory `base/2020` — the `<base>/<year>` component is
pre-declared at construction, not created at write time. -/
theorem ctor_predeclares_year_dir :
    (with_path_and_token 2020 "base" "tok" true).dirsCreated = ["base" ++ "/" ++ "2020"] ∧
    (with_path_and_token 2020 "base" "tok" true).dirsCreated ≠ [] :=
  ⟨rfl, by decide⟩

/-- C9 amended: for every year below the assertion bound, construction with
a working filesystem eagerly creates exactly the `<base>/<year>` directory
(`create_dir_all` in `with_path_and_token`) and returns the built client;
`AoC.write` itself performs a plain file write and creates no directory. -/
theorem ctor_creates_year_dir (year : Nat) (path token : String)
    (h : year < 3000) :
    with_path_and_token year path token true
      = ⟨.ok ⟨path, token, year⟩, [path ++ "/" ++ toString year]⟩ := by
  simp [with_path_and_token, h]

/-- Witness for C9's amended claim at year 2020, base "base". -/
theorem ctor_creates_year_dir_witness :
    with_path_and_token 2020 "base" "tok" true
      = ⟨.ok ⟨"base", "tok", 2020⟩, ["base" ++ "/" ++ toString 2020]⟩ :=
  ctor_creates_year_dir 2020 "base" "tok" (by decide)

end Emergence
